import Mathlib

/-
Verification of the ForgeAI companion safety-mediation core against its
specification.

Sources under src/: packages/companion/src-tauri/src/commands.rs (the IPC
command surface: check_safety, execute_action, get_system_info) and
packages/companion/src-tauri/src/voice.rs (the resample helper).

The safety classifier (module safety: check_shell_command,
check_file_operation) and the dispatcher (module local_actions: execute)
are declared and called from commands.rs but their sources are not part of
the inspected tree; those definitions are modelled from the specification
(sections 4.1 and 4.2) and are marked as such in their doc comments.

Machine integers are modelled as Nat; OS side effects are modelled by an
explicit world type threaded through the dispatcher; a Rust panic is
modelled as Option.none.
-/

namespace ForgeAI

/-- Risk tiers of the safety system, ordered by damage potential
(spec section 3, field enumeration in section 6). -/
inductive RiskLevel where
  | Safe
  | Caution
  | Dangerous
  | Blocked
  deriving DecidableEq

/-- Verdict returned by the classifier (spec sections 3 and 6;
return type of check_safety in commands.rs line 41). -/
structure SafetyVerdict where
  allowed : Bool
  risk : RiskLevel
  reason : String
  requires_confirmation : Bool
  deriving DecidableEq

/-- A local action request, field-for-field the struct constructed in
commands.rs lines 136 to 144 (get_system_info). -/
structure ActionRequest where
  action : String
  path : Option String
  command : Option String
  content : Option String
  process_name : Option String
  app_name : Option String
  confirmed : Bool
  deriving DecidableEq

/-- Result of a dispatched action (spec section 6 field enumeration). -/
structure ActionResult where
  success : Bool
  output : Option String
  error : Option String
  safety : SafetyVerdict
  deriving DecidableEq

/-- Lowercase one ASCII character, used by command normalization. -/
def lowerChar (c : Char) : Char :=
  if 65 ≤ c.toNat ∧ c.toNat ≤ 90 then Char.ofNat (c.toNat + 32) else c

/-- True for characters that survive quote stripping: everything except
a double quote (code 34) or a single quote (code 39). -/
def notQuote (c : Char) : Bool :=
  c.toNat != 34 && c.toNat != 39

/-- ASCII whitespace recognised by trimming. -/
def isSpaceChar (c : Char) : Bool :=
  c == ' ' || c == '\t' || c == '\n' || c == '\r'

/-- Drop leading and trailing whitespace from a character list. -/
def trimChars (l : List Char) : List Char :=
  (((l.dropWhile isSpaceChar).reverse).dropWhile isSpaceChar).reverse

/-- Does the second list start with the first? -/
def leadsWith : List Char → List Char → Bool
  | [], _ => true
  | _ :: _, [] => false
  | p :: ps, c :: cs => p == c && leadsWith ps cs

/-- Does the second list contain the first as a contiguous run? -/
def hasSub (pat : List Char) : List Char → Bool
  | [] => pat.isEmpty
  | c :: cs => leadsWith pat (c :: cs) || hasSub pat cs

/-- Modelled from the spec: command normalization of the missing
safety module (spec 4.1: trim, lowercase, strip quoting). -/
def normalize (s : String) : List Char :=
  ((trimChars s.data).map lowerChar).filter notQuote

/-- Modelled from the spec: the canonical-catastrophe rule family of the
missing safety module (spec 4.1: unconditional recursive deletion of a
root-level path, disk wipe utilities, low-level device writes, fork bombs). -/
def blockedPats : List (List Char) :=
  ["rm -rf /".data, "rm -fr /".data, "rm -rf ~".data, "mkfs".data,
   "dd of=/dev/".data, ":()\x7b".data]

/-- Modelled from the spec: the high-blast-radius rule family of the
missing safety module (spec 4.1: forced recursive deletion, privilege
escalation with destructive verbs, critical process termination, piping
remote content into an interpreter). -/
def dangerousPats : List (List Char) :=
  ["rm -rf".data, "rm -fr".data, "sudo rm".data, "shutdown".data,
   "reboot".data, "| sh".data, "| bash".data, "killall".data, "kill -9".data]

/-- Modelled from the spec: reversible local-mutation command heads of the
missing safety module (spec 4.1: commands that mutate local state but are
reversible, such as creating a directory). -/
def cautionHeads : List (List Char) :=
  ["mkdir".data, "touch".data, "mv ".data, "cp ".data, "rm ".data,
   "git ".data, "chmod ".data]

/-- Is any pattern of the family a contiguous run of the command? -/
def anySub (pats : List (List Char)) (c : List Char) : Bool :=
  pats.any (fun p => hasSub p c)

/-- Does the command start with any head of the family? -/
def anyLead (pats : List (List Char)) (c : List Char) : Bool :=
  pats.any (fun p => leadsWith p c)

/-- Modelled from the spec: safety::check_shell_command, whose source is
not under src/ (spec 4.1). Normalizes the command, then matches the ordered
rule families from most to least severe; the first match fixes the tier,
and a command matching no family is Safe. -/
def check_shell_command (cmd : String) : SafetyVerdict :=
  if anySub blockedPats (normalize cmd) then
    ⟨false, RiskLevel.Blocked, "Blocked: catastrophic command pattern", false⟩
  else if anySub dangerousPats (normalize cmd) then
    ⟨true, RiskLevel.Dangerous, "Dangerous command: confirmation required", true⟩
  else if anyLead cautionHeads (normalize cmd) then
    ⟨true, RiskLevel.Caution, "Command mutates local state", false⟩
  else
    ⟨true, RiskLevel.Safe, "No destructive pattern detected", false⟩

/-- Modelled from the spec: lexical collapse of path segments for the missing
safety module (spec 4.1: canonical form collapsing dot-dot traversal; the
symlink following of the real canonicalization is a filesystem effect and is
modelled by the purely lexical part). Returns the collapsed segments and
whether a dot-dot segment escaped the root. -/
def collapseSegs : List String → List String → Bool → List String × Bool
  | [], acc, esc => (acc.reverse, esc)
  | s :: rest, acc, esc =>
    if s = "" ∨ s = "." then collapseSegs rest acc esc
    else if s = ".." then
      match acc with
      | [] => collapseSegs rest [] true
      | _ :: t => collapseSegs rest t esc
    else collapseSegs rest (s :: acc) esc

/-- Split a path on slashes and collapse it. -/
def canonSegs (p : String) : List String × Bool :=
  collapseSegs (p.split (· = '/')) [] false

/-- Modelled from the spec: protected system directories of the missing
safety module (spec 4.1: paths under system directories are a protected
zone). -/
def protectedRoots : List String :=
  ["etc", "sys", "proc", "bin", "sbin", "usr", "boot", "dev", "lib",
   "windows", "system32"]

/-- Modelled from the spec: segments marking the credential or secret store
of this companion (spec 4.1: the credential store is a protected zone). -/
def protectedSeg (s : String) : Bool :=
  s == ".ssh" || s == ".forgeai"

/-- Is the first collapsed segment a protected system directory? -/
def headProtected : List String → Bool
  | [] => false
  | root :: _ => protectedRoots.contains root

/-- File-operation kinds that mutate existing state (spec 4.1: delete,
overwrite and move operations are at least Caution). -/
def mutatingActions : List String :=
  ["write_file", "delete_file", "move_file"]

/-- Modelled from the spec: safety::check_file_operation, whose source is
not under src/ (spec 4.1). An unresolvable (blank) path defaults to the most
restrictive applicable tier; a path escaping the permitted root or entering
a protected zone is Dangerous; other mutations are Caution; reads are Safe. -/
def check_file_operation (act : String) (p : String) : SafetyVerdict :=
  if trimChars p.data = [] then
    ⟨true, RiskLevel.Dangerous, "Unresolvable path", true⟩
  else if (canonSegs p).2 then
    ⟨true, RiskLevel.Dangerous, "Path escapes the permitted root", true⟩
  else if headProtected (canonSegs p).1 || ((canonSegs p).1).any protectedSeg then
    ⟨true, RiskLevel.Dangerous, "Protected path", true⟩
  else if act ∈ mutatingActions then
    ⟨true, RiskLevel.Caution, "Mutating file operation", false⟩
  else
    ⟨true, RiskLevel.Safe, "Read-only file operation", false⟩

/-- The check_safety IPC command, from commands.rs lines 41 to 54: a supplied
command is checked by the shell classifier, otherwise a supplied path by the
file classifier, otherwise an unconditional Safe verdict is returned. -/
def check_safety (act : String) (path : Option String) (command : Option String) :
    SafetyVerdict :=
  match command with
  | some cmd => check_shell_command cmd
  | none =>
    match path with
    | some p => check_file_operation act p
    | none =>
      ⟨true, RiskLevel.Safe, "No path or command to check", false⟩

/-- Outcome reported by an OS-level handler: the success flag and payloads
that the dispatcher folds into its ActionResult (spec 4.2 step 5). -/
structure HandlerOutcome where
  success : Bool
  output : Option String
  error : Option String
  deriving DecidableEq

/-- The behaviour of the OS-level handlers, abstracted over a world type W:
given the action kind, the request and the current world, a handler returns
its outcome and the possibly changed world. The theorems quantify over this
behaviour, so nothing is assumed about what a handler does when it runs. -/
def Handler (W : Type) : Type :=
  String → ActionRequest → W → HandlerOutcome × W

/-- Modelled from the spec: the closed set of registered action handlers of
the missing local_actions module (spec 4.2: handlers are a closed enumerated
set, one per ActionKind; kinds listed in section 6). -/
def handledActions : List String :=
  ["read_file", "write_file", "delete_file", "move_file",
   "run_shell_command", "launch_app", "kill_process", "system_info"]

/-- The action kinds routed to the file-operation classifier. -/
def fileActions : List String :=
  ["read_file", "write_file", "delete_file", "move_file"]

/-- The fixed verdict attached when nothing was attempted (spec 4.2 step 1). -/
def safeVerdict : SafetyVerdict :=
  ⟨true, RiskLevel.Safe, "No safety concerns", false⟩

/-- Modelled from the spec: the classification step of the missing
local_actions::execute (spec 4.2 step 2: the appropriate classifier for the
nature of the action, shell versus file versus other). -/
def classify (req : ActionRequest) : SafetyVerdict :=
  if req.action = "run_shell_command" then
    check_shell_command (req.command.getD "")
  else if req.action ∈ fileActions then
    check_file_operation req.action (req.path.getD "")
  else if req.action = "kill_process" then
    ⟨true, RiskLevel.Dangerous, "Killing a process requires confirmation", true⟩
  else if req.action = "launch_app" then
    ⟨true, RiskLevel.Caution, "Launching an application", false⟩
  else
    ⟨true, RiskLevel.Safe, "No safety concerns", false⟩

/-- Modelled from the spec: local_actions::execute, whose source is not
under src/ (spec 4.2 steps 1 to 5): handler lookup first, then
classification, the Blocked refusal, the unconfirmed-confirmation refusal,
and only then the handler invocation, whose outcome is folded into the
result. The audit trail of step 6 is external to the core logic (spec
section 3) and is not part of the world. -/
def execute {W : Type} (h : Handler W) (req : ActionRequest) (w : W) :
    ActionResult × W :=
  if req.action ∈ handledActions then
    if (classify req).risk = RiskLevel.Blocked then
      (⟨false, none, some (classify req).reason, classify req⟩, w)
    else if (classify req).requires_confirmation && !req.confirmed then
      (⟨false, some "confirmation required", none, classify req⟩, w)
    else
      (⟨(h req.action req w).1.success, (h req.action req w).1.output,
        (h req.action req w).1.error, classify req⟩, (h req.action req w).2)
  else
    (⟨false, none, some "unsupported action", safeVerdict⟩, w)

/-- The execute_action IPC command, from commands.rs lines 27 to 37: it logs
and delegates to local_actions::execute unchanged. -/
def execute_action {W : Type} (h : Handler W) (req : ActionRequest) (w : W) :
    ActionResult × W :=
  execute h req w

/-- The get_system_info IPC command, from commands.rs lines 134 to 145: it
submits the fixed system_info request with every optional field absent and
confirmed false. -/
def get_system_info {W : Type} (h : Handler W) (w : W) : ActionResult × W :=
  execute h ⟨"system_info", none, none, none, none, none, false⟩ w

/-- Repeated submission of the identical request, threading the world:
executeMany h req n w performs n calls in sequence and collects the results. -/
def executeMany {W : Type} (h : Handler W) (req : ActionRequest) :
    Nat → W → List ActionResult × W
  | 0, w => ([], w)
  | Nat.succ n, w =>
    ((execute h req w).1 :: (executeMany h req n (execute h req w).2).1,
     (executeMany h req n (execute h req w).2).2)

/-- Largest value of a 64-bit usize; the companion targets 64-bit desktop
platforms. A float-to-usize cast in Rust saturates at this value. -/
def usizeMax : Nat := 2 ^ 64 - 1

/-- Largest value of a 64-bit isize; Vec::with_capacity panics once the
requested capacity exceeds this many bytes. -/
def isizeMax : Nat := 2 ^ 63 - 1

/-- The out_len computation of resample (voice.rs line 344 to 345):
ratio = from_rate / to_rate and out_len = (samples.len() / ratio) as usize,
both in f64. The two divisions are modelled as exact rational arithmetic
truncated toward zero, which for positive rates is len * to_rate / from_rate
in Nat. The degenerate f64 cases are kept exactly: from_rate = 0 gives
ratio = 0, so a non-empty slice divides to positive infinity, which the
usize cast saturates to usizeMax, while an empty slice gives NaN, which
casts to 0; to_rate = 0 gives ratio = infinity and a quotient of 0. -/
def outLen (len fromRate toRate : Nat) : Nat :=
  if fromRate = 0 then
    (if len = 0 then 0 else usizeMax)
  else if toRate = 0 then 0
  else min (len * toRate / fromRate) usizeMax

/-- One iteration of the resample loop (voice.rs lines 347 to 354), at loop
index i: src_pos = i * from_rate / to_rate, idx its truncation, frac the
remainder, and the two clamped reads followed by linear interpolation.
Sample values are modelled as rationals standing for f32, and a read that
would panic, including the samples.len() - 1 underflow on an empty slice,
is none. -/
def resampleAt (samples : List ℚ) (fromRate toRate i : Nat) : Option ℚ :=
  match samples with
  | [] => none
  | _ :: _ =>
    match samples.get? (min (i * fromRate / toRate) (samples.length - 1)),
          samples.get? (min (i * fromRate / toRate + 1) (samples.length - 1)) with
    | some s0, some s1 =>
      some (s0 + (s1 - s0) *
        (((i * fromRate : Nat) : ℚ) / ((toRate : Nat) : ℚ)
          - (((i * fromRate / toRate : Nat)) : ℚ)))
    | _, _ => none

/-- The resample output loop: the results of iterations 0 to n - 1 in order,
none as soon as any iteration panics. -/
def resampleLoop (samples : List ℚ) (fromRate toRate : Nat) : Nat → Option (List ℚ)
  | 0 => some []
  | Nat.succ k =>
    match resampleLoop samples fromRate toRate k,
          resampleAt samples fromRate toRate k with
    | some acc, some v => some (acc ++ [v])
    | _, _ => none

/-- The resample helper of voice.rs lines 340 to 356: equal rates return the
input unchanged; otherwise the output length is computed, the output vector
is allocated — Vec::with_capacity panics if the requested capacity exceeds
isizeMax bytes at four bytes per f32 sample — and the interpolation loop
runs. none models a panic. -/
def resample (samples : List ℚ) (fromRate toRate : Nat) : Option (List ℚ) :=
  if fromRate = toRate then some samples
  else if isizeMax < 4 * outLen samples.length fromRate toRate then none
  else resampleLoop samples fromRate toRate (outLen samples.length fromRate toRate)

/-- Concrete handler behaviour used by the witnesses: reports success and
advances a Nat world by one. -/
def hInc : Handler Nat := fun _ _ w => (⟨true, some "ok", none⟩, w + 1)

/-- Concrete handler behaviour used by the witnesses: reports success and
leaves the world alone. -/
def hNop : Handler Nat := fun _ _ w => (⟨true, none, none⟩, w)

/-- Witness request: the canonical catastrophic shell command, submitted
with confirmed already true. -/
def rmRootReq : ActionRequest :=
  ⟨"run_shell_command", none, some "rm -rf /", none, none, none, true⟩

/-- Witness request: a process kill, which requires confirmation, submitted
unconfirmed. -/
def killReq : ActionRequest :=
  ⟨"kill_process", none, none, none, some "updater", none, false⟩

/-- Witness request: an action kind with no registered handler. -/
def danceReq : ActionRequest :=
  ⟨"dance", none, none, none, none, none, false⟩

example : (check_shell_command "rm -rf /").risk = RiskLevel.Blocked := by decide
example : (check_shell_command "mkdir project").risk = RiskLevel.Caution := by decide
example : resample [(1 : ℚ), 2] 3 3 = some [(1 : ℚ), 2] := by decide
example : resample [] 48000 16000 = some [] := by decide

/-- A shell verdict asking for confirmation is always the Dangerous tier. -/
theorem shell_rc_dangerous (cmd : String) :
    (check_shell_command cmd).requires_confirmation = true →
    (check_shell_command cmd).risk = RiskLevel.Dangerous := by
  unfold check_shell_command
  split
  · decide
  · split
    · decide
    · split
      · decide
      · decide

/-- A file-operation verdict asking for confirmation is always Dangerous. -/
theorem file_rc_dangerous (act p : String) :
    (check_file_operation act p).requires_confirmation = true →
    (check_file_operation act p).risk = RiskLevel.Dangerous := by
  unfold check_file_operation
  split
  · decide
  · split
    · decide
    · split
      · decide
      · split
        · decide
        · decide

/-- In every shell verdict, allowed is false exactly on the Blocked tier. -/
theorem shell_allowed_iff (cmd : String) :
    (check_shell_command cmd).allowed = false ↔
    (check_shell_command cmd).risk = RiskLevel.Blocked := by
  unfold check_shell_command
  split
  · decide
  · split
    · decide
    · split
      · decide
      · decide

/-- In every file-operation verdict, allowed is false exactly on Blocked. -/
theorem file_allowed_iff (act p : String) :
    (check_file_operation act p).allowed = false ↔
    (check_file_operation act p).risk = RiskLevel.Blocked := by
  unfold check_file_operation
  split
  · decide
  · split
    · decide
    · split
      · decide
      · split
        · decide
        · decide

/-- A dispatcher classification asking for confirmation is always the
Dangerous tier, hence never Blocked. -/
theorem classify_rc_dangerous (req : ActionRequest) :
    (classify req).requires_confirmation = true →
    (classify req).risk = RiskLevel.Dangerous := by
  unfold classify
  split
  · exact shell_rc_dangerous _
  · split
    · exact file_rc_dangerous _ _
    · split
      · intro _; rfl
      · split
        · intro h1; exact absurd h1 (by decide)
        · intro h1; exact absurd h1 (by decide)

/-- A dispatcher classification asking for confirmation only arises for an
action kind that has a registered handler. -/
theorem classify_rc_handled (req : ActionRequest)
    (h1 : (classify req).requires_confirmation = true) :
    req.action ∈ handledActions := by
  unfold classify at h1
  split at h1
  · rename_i hc; rw [hc]; decide
  · split at h1
    · rename_i hc
      simp only [fileActions, List.mem_cons, List.not_mem_nil, or_false] at hc
      rcases hc with h | h | h | h <;> (rw [h]; decide)
    · split at h1
      · rename_i hc; rw [hc]; decide
      · split at h1
        · exact absurd h1 (by decide)
        · exact absurd h1 (by decide)

/-- The pending-confirmation branch of the dispatcher: a verdict that
requires confirmation on an unconfirmed request yields the fixed refusal
and leaves the world untouched. -/
theorem execute_pending {W : Type} (h : Handler W) (req : ActionRequest)
    (w : W) (h1 : (classify req).requires_confirmation = true)
    (h2 : req.confirmed = false) :
    execute h req w =
      (⟨false, some "confirmation required", none, classify req⟩, w) := by
  have hm := classify_rc_handled req h1
  have hd := classify_rc_dangerous req h1
  unfold execute
  rw [if_pos hm, if_neg (by rw [hd]; decide), if_pos (by rw [h1, h2]; rfl)]

/-- On a non-empty slice, one resample loop iteration never panics: both
clamped indices stay below the length. -/
theorem resampleAt_cons_some (a : ℚ) (l : List ℚ) (fromRate toRate i : Nat) :
    ∃ q, resampleAt (a :: l) fromRate toRate i = some q := by
  have hlt0 : min (i * fromRate / toRate) ((a :: l).length - 1) < (a :: l).length := by
    simp only [List.length_cons, Nat.add_sub_cancel]
    exact Nat.lt_succ_of_le (Nat.min_le_right _ _)
  have hlt1 : min (i * fromRate / toRate + 1) ((a :: l).length - 1) < (a :: l).length := by
    simp only [List.length_cons, Nat.add_sub_cancel]
    exact Nat.lt_succ_of_le (Nat.min_le_right _ _)
  obtain ⟨v0, hv0⟩ : ∃ v,
      (a :: l).get? (min (i * fromRate / toRate) ((a :: l).length - 1)) = some v :=
    ⟨_, List.get?_eq_get hlt0⟩
  obtain ⟨v1, hv1⟩ : ∃ v,
      (a :: l).get? (min (i * fromRate / toRate + 1) ((a :: l).length - 1)) = some v :=
    ⟨_, List.get?_eq_get hlt1⟩
  unfold resampleAt
  rw [hv0, hv1]
  exact ⟨_, rfl⟩

/-- On a non-empty slice, the whole resample loop never panics. -/
theorem resampleLoop_cons_some (a : ℚ) (l : List ℚ) (fromRate toRate : Nat) :
    ∀ n, ∃ out, resampleLoop (a :: l) fromRate toRate n = some out := by
  intro n
  induction n with
  | zero => exact ⟨[], rfl⟩
  | succ k ih =>
    obtain ⟨acc, hacc⟩ := ih
    obtain ⟨v, hv⟩ := resampleAt_cons_some a l fromRate toRate k
    exact ⟨acc ++ [v], by unfold resampleLoop; rw [hacc, hv]⟩

/-- With a nonzero input rate, the computed output length of an empty slice
is zero. -/
theorem outLen_nil (fromRate toRate : Nat) (hf : fromRate ≠ 0) :
    outLen 0 fromRate toRate = 0 := by
  unfold outLen
  rw [if_neg hf]
  split
  · rfl
  · simp

/-- Claim C1: for every ActionRequest whose classification has risk Blocked,
execute returns a failure result and never invokes any OS-level handler —
the result is identical for every handler behaviour and the world is left
unchanged — for any value of the confirmed flag. -/
theorem c1_blocked_never_invokes_handler {W : Type} (h1 h2 : Handler W)
    (req : ActionRequest) (w : W)
    (hb : (classify req).risk = RiskLevel.Blocked) :
    (execute h1 req w).1.success = false ∧
    execute h1 req w = execute h2 req w ∧
    (execute h1 req w).2 = w := by
  unfold execute
  by_cases hm : req.action ∈ handledActions
  · simp [hm, hb]
  · simp [hm]

/-- Claim C1 witness: the canonical catastrophic shell command, submitted
with confirmed true, is refused without any handler effect. -/
theorem c1_blocked_never_invokes_handler_witness :
    (classify rmRootReq).risk = RiskLevel.Blocked ∧
    ((execute hInc rmRootReq 0).1.success = false ∧
     execute hInc rmRootReq 0 = execute hNop rmRootReq 0 ∧
     (execute hInc rmRootReq 0).2 = 0) :=
  ⟨by decide, c1_blocked_never_invokes_handler hInc hNop rmRootReq 0 (by decide)⟩

/-- Claim C2 counterexample: with neither path nor command supplied, the
reason of the verdict returned by check_safety is not the
"nothing to check" stated in the claim. -/
theorem c2_empty_reason_counterexample :
    ¬ (check_safety "read_file" none none).reason = "nothing to check" := by
  decide

/-- Claim C2 (amended): with neither path nor command supplied, check_safety
returns risk Safe, allowed true, requires_confirmation false, and reason
"No path or command to check", for every action string. -/
theorem c2_empty_check_safety (act : String) :
    check_safety act none none =
      ⟨true, RiskLevel.Safe, "No path or command to check", false⟩ := rfl

/-- Claim C3: on a verdict that requires confirmation and an unconfirmed
request, execute returns success false, output "confirmation required" and
the governing verdict, and the handler is never invoked: the world is
returned unchanged. -/
theorem c3_unconfirmed_refusal {W : Type} (h : Handler W)
    (req : ActionRequest) (w : W)
    (hc : (classify req).requires_confirmation = true)
    (hf : req.confirmed = false) :
    execute h req w =
      (⟨false, some "confirmation required", none, classify req⟩, w) :=
  execute_pending h req w hc hf

/-- Claim C3 witness: an unconfirmed kill_process request is refused with
the confirmation message and no world change. -/
theorem c3_unconfirmed_refusal_witness :
    ((classify killReq).requires_confirmation = true ∧
     killReq.confirmed = false) ∧
    execute hInc killReq 0 =
      (⟨false, some "confirmation required", none, classify killReq⟩, 0) :=
  ⟨⟨by decide, rfl⟩, c3_unconfirmed_refusal hInc killReq 0 (by decide) rfl⟩

/-- Claim C4: in every verdict produced by the shell classifier, the file
classifier or the empty-input branch of check_safety, allowed is false if
and only if the risk is Blocked. -/
theorem c4_allowed_iff_blocked :
    (∀ cmd : String, ((check_shell_command cmd).allowed = false ↔
        (check_shell_command cmd).risk = RiskLevel.Blocked)) ∧
    (∀ act p : String, ((check_file_operation act p).allowed = false ↔
        (check_file_operation act p).risk = RiskLevel.Blocked)) ∧
    (∀ act : String, ((check_safety act none none).allowed = false ↔
        (check_safety act none none).risk = RiskLevel.Blocked)) :=
  ⟨shell_allowed_iff, file_allowed_iff, fun act => by
    have he : check_safety act none none =
        ⟨true, RiskLevel.Safe, "No path or command to check", false⟩ := rfl
    rw [he]
    decide⟩

/-- Claim C5: a request whose action kind has no registered handler yields
success false, error "unsupported action" and the fixed Safe verdict,
independent of every other request field and of the handler behaviour, with
the world unchanged. -/
theorem c5_unsupported_action {W : Type} (h : Handler W)
    (req : ActionRequest) (w : W) (hn : req.action ∉ handledActions) :
    execute h req w =
      (⟨false, none, some "unsupported action", safeVerdict⟩, w) ∧
    safeVerdict.risk = RiskLevel.Safe := by
  unfold execute
  rw [if_neg hn]
  exact ⟨rfl, rfl⟩

/-- Claim C5 witness: an unknown action kind is reported unsupported. -/
theorem c5_unsupported_action_witness :
    danceReq.action ∉ handledActions ∧
    (execute hInc danceReq 0 =
       (⟨false, none, some "unsupported action", safeVerdict⟩, 0) ∧
     safeVerdict.risk = RiskLevel.Safe) :=
  ⟨by decide, c5_unsupported_action hInc danceReq 0 (by decide)⟩

/-- Claim C6: the shell classifier sends "rm -rf /" to Blocked and
"mkdir project" to Safe or Caution with allowed true. -/
theorem c6_canonical_commands :
    (check_shell_command "rm -rf /").risk = RiskLevel.Blocked ∧
    ((check_shell_command "mkdir project").risk = RiskLevel.Safe ∨
     (check_shell_command "mkdir project").risk = RiskLevel.Caution) ∧
    (check_shell_command "mkdir project").allowed = true := by
  decide

/-- Claim C7: on a verdict that requires confirmation and an unconfirmed
request, any number of repeated calls with the identical request is
idempotent: every call returns the identical refusal carrying the identical
verdict, and the world is exactly the initial one afterwards. -/
theorem c7_pending_idempotent {W : Type} (h : Handler W)
    (req : ActionRequest) (n : Nat) (w : W)
    (hc : (classify req).requires_confirmation = true)
    (hf : req.confirmed = false) :
    executeMany h req n w =
      (List.replicate n ⟨false, some "confirmation required", none, classify req⟩,
       w) := by
  induction n generalizing w with
  | zero => rfl
  | succ k ih =>
    unfold executeMany
    rw [execute_pending h req w hc hf, ih]
    rfl

/-- Claim C7 witness: two repeated unconfirmed kill_process submissions
return the identical refusal twice and leave the world where it started. -/
theorem c7_pending_idempotent_witness :
    ((classify killReq).requires_confirmation = true ∧
     killReq.confirmed = false) ∧
    executeMany hInc killReq 2 0 =
      (List.replicate 2
        ⟨false, some "confirmation required", none, classify killReq⟩, 0) :=
  ⟨⟨by decide, rfl⟩, c7_pending_idempotent hInc killReq 2 0 (by decide) rfl⟩

/-- Claim C8: whenever both a command and a path are supplied, check_safety
returns exactly the shell classifier applied to the command; the action and
path arguments are ignored. -/
theorem c8_command_precedence (act p cmd : String) :
    check_safety act (some p) (some cmd) = check_shell_command cmd := rfl

/-- Claim C9: get_system_info always submits the fixed system_info request
with every optional field absent and confirmed false to the dispatcher. -/
theorem c9_system_info_request {W : Type} (h : Handler W) (w : W) :
    get_system_info h w =
      execute h ⟨"system_info", none, none, none, none, none, false⟩ w := rfl

/-- Claim C10 counterexample: resample panics on the one-sample slice with
from_rate 0 and to_rate 16000 — the f64 quotient is infinite, the usize
cast saturates, and Vec::with_capacity overflows its capacity. -/
theorem c10_resample_counterexample :
    resample [(0 : ℚ)] 0 16000 = none := by decide

/-- Claim C10 (amended): resampling to the same rate is the identity for
every slice and rate, and resample never panics — including on the empty
slice — whenever from_rate is nonzero and the computed output length stays
within the capacity limit of the output vector. -/
theorem c10_resample_amended :
    (∀ (s : List ℚ) (r : Nat), resample s r r = some s) ∧
    (∀ (s : List ℚ) (fr tr : Nat), 0 < fr →
      4 * outLen s.length fr tr ≤ isizeMax →
      ∃ out, resample s fr tr = some out) := by
  constructor
  · intro s r
    simp [resample]
  · intro s fr tr hfr hcap
    by_cases heq : fr = tr
    · exact ⟨s, by simp [resample, heq]⟩
    · unfold resample
      rw [if_neg heq, if_neg (Nat.not_lt.mpr hcap)]
      cases s with
      | nil =>
        simp only [List.length_nil]
        rw [outLen_nil fr tr (Nat.pos_iff_ne_zero.mp hfr)]
        exact ⟨[], rfl⟩
      | cons a l => exact resampleLoop_cons_some a l fr tr _

/-- Claim C10 witness: halving the rate of a one-sample slice is within the
capacity limit and completes without a panic. -/
theorem c10_resample_amended_witness :
    (0 < 2 ∧ 4 * outLen 1 2 1 ≤ isizeMax) ∧
    ∃ out, resample [(1 : ℚ)] 2 1 = some out :=
  ⟨⟨by decide, by decide⟩,
   c10_resample_amended.2 [(1 : ℚ)] 2 1 (by decide) (by decide)⟩

end ForgeAI
